import Mathlib

/-!
Verification of the jflte CPU hotplug decision engines.

The repository ships three closely related load-driven hotplug drivers:
two variants of `ix_hotplug.c` (the first with an io-wait gate and a
least-loaded victim policy, the second with a fixed-order victim policy)
and `auto_hotplug.c`.  This file gives a shallow embedding of the
decision engines and of the per-unit load accounting, and proves the
behavioural properties of the specification against them.

The hardware pool is fixed at four possible CPUs (`available_cpus = 4`
in both files), so the per-CPU online bitmap is embedded as a structure
of four booleans.  Machine integers are embedded as `Nat` with explicit
truncation (`% 2^32`, `% 2^64`) at the points where the C code performs
unsigned-narrowing casts.  Per-CPU utilization values produced by
`get_cpu_load` enter the decision engine as an oracle `loads : Nat → Nat`
sampled once per tick, matching the call structure of the source.
-/

/-- The fixed pool of four possible processing units; `true` = online. -/
structure CpuSet where
  c0 : Bool
  c1 : Bool
  c2 : Bool
  c3 : Bool
deriving DecidableEq, Repr

/-- Embedding of `num_online_cpus()` over the four-unit pool. -/
def numOnlineCpus (c : CpuSet) : Nat :=
  (if c.c0 then 1 else 0) + (if c.c1 then 1 else 0) +
  (if c.c2 then 1 else 0) + (if c.c3 then 1 else 0)

/-- Embedding of `cpu_online(i)`. -/
def cpuOnline (c : CpuSet) : Nat → Bool
  | 0 => c.c0
  | 1 => c.c1
  | 2 => c.c2
  | 3 => c.c3
  | _ => false

/-- Embedding of `cpu_up(i)` for a valid unit index. -/
def cpuUp (c : CpuSet) (i : Nat) : CpuSet :=
  if i = 0 then { c with c0 := true }
  else if i = 1 then { c with c1 := true }
  else if i = 2 then { c with c2 := true }
  else if i = 3 then { c with c3 := true }
  else c

/-- Embedding of `cpu_down(i)` for a valid unit index. -/
def cpuDown (c : CpuSet) (i : Nat) : CpuSet :=
  if i = 0 then { c with c0 := false }
  else if i = 1 then { c with c1 := false }
  else if i = 2 then { c with c2 := false }
  else if i = 3 then { c with c3 := false }
  else c

/-- `hotplug_online_single_work`: walk the possible CPUs in index order,
skip unit 0, and bring up the first offline one (both `ix_hotplug`
variants and `auto_hotplug` share this routine verbatim). -/
def hotplug_online_single_work (c : CpuSet) : CpuSet :=
  if c.c1 = false then { c with c1 := true }
  else if c.c2 = false then { c with c2 := true }
  else if c.c3 = false then { c with c3 := true }
  else c

/-- `hotplug_online_all_work`: bring up every offline CPU (unit 0
included in the walk, so the result is the fully-online pool). -/
def hotplug_online_all_work (_ : CpuSet) : CpuSet :=
  ⟨true, true, true, true⟩

/-- Victim selection of `hotplug_offline_work` in the second
`ix_hotplug` variant and in `auto_hotplug`: walk the online CPUs in
index order and take the first one that is not unit 0.  `none` means the
loop fell through without calling `cpu_down`. -/
def offlineFirstVictim (c : CpuSet) : Option Nat :=
  if c.c1 then some 1
  else if c.c2 then some 2
  else if c.c3 then some 3
  else none

/-- Victim selection of `hotplug_offline_work` in the first `ix_hotplug`
variant: among online CPUs other than unit 0, keep the first one whose
sampled load is strictly below the running minimum, starting from
`ULONG_MAX` (32-bit `unsigned long`).  `none` models `idlest = -1`,
in which case the subsequent `cpu_down(-1)` changes no CPU state. -/
def offlineIdlestVictim (c : CpuSet) (loads : Nat → Nat) : Option Nat :=
  let m0 : Nat × Option Nat := (4294967295, none)
  let m1 : Nat × Option Nat :=
    if c.c1 = true ∧ loads 1 < m0.1 then (loads 1, some 1) else m0
  let m2 : Nat × Option Nat :=
    if c.c2 = true ∧ loads 2 < m1.1 then (loads 2, some 2) else m1
  let m3 : Nat × Option Nat :=
    if c.c3 = true ∧ loads 3 < m2.1 then (loads 3, some 3) else m2
  m3.2

/-- The single unit-state command (or absence of one) a tick issues. -/
inductive HpAction where
  | noop : HpAction
  | offlineCall : Option Nat → HpAction
  | onlineAllCall : HpAction
  | onlineSingleCall : HpAction
deriving DecidableEq, Repr

/-! ## Per-unit load accounting (`get_cpu_load`, first variant) -/

/-- Per-CPU baseline record `struct cpu_load_data`; the per-CPU static
storage is zero-initialized, so the first invocation sees `⟨0, 0⟩`. -/
structure CpuLoadData where
  prev_cpu_idle : Nat
  prev_cpu_wall : Nat
deriving DecidableEq, Repr

/-- Unsigned 64-bit subtraction `a - b` on values below `2^64`. -/
def sub64 (a b : Nat) : Nat :=
  (a + 18446744073709551616 - b) % 18446744073709551616

/-- Embedding of `get_cpu_load`: the cumulative wall/idle counters and
the current/maximum frequency are read from the environment; the deltas
against the stored baselines are narrowed to `unsigned int`, the
baselines are overwritten unconditionally, and the guarded utilization
`100 * (wall_delta - idle_delta) / wall_delta` is scaled by
`cur_freq / max_freq`.  Returns the utilization and the updated
baseline record. -/
def get_cpu_load (p : CpuLoadData) (cur_wall cur_idle cur_freq max_freq : Nat) :
    Nat × CpuLoadData :=
  let wall_time : Nat := sub64 cur_wall p.prev_cpu_wall % 4294967296
  let idle_time : Nat := sub64 cur_idle p.prev_cpu_idle % 4294967296
  let p' : CpuLoadData := ⟨cur_idle, cur_wall⟩
  if wall_time = 0 ∨ wall_time < idle_time then (0, p')
  else ((100 * (wall_time - idle_time) / wall_time) * cur_freq / max_freq, p')

/-! ## First `ix_hotplug` variant: constants and tick -/

/-- `enable_load[5] = {0, 200, 235, 300, 0}` of the first variant. -/
def enableLoad1 : Nat → Nat
  | 1 => 200
  | 2 => 235
  | 3 => 300
  | _ => 0

/-- `disable_load[5] = {0, 0, 70, 100, 225}` of the first variant. -/
def disableLoad1 : Nat → Nat
  | 2 => 70
  | 3 => 100
  | 4 => 225
  | _ => 0

/-- `sample_rate[5] = {0, 100, 125, 150, 150}` of the first variant. -/
def sampleRate1 : Nat → Nat
  | 1 => 100
  | 2 => 125
  | 3 => 150
  | 4 => 150
  | _ => 0

/-- `enable_all_load = 700` in the first variant. -/
def enableAllLoad1 : Nat := 700

/-- `online_sampling_periods = 3` (both variants). -/
def online_sampling_periods : Nat := 3

/-- `offline_sampling_periods = 5` (both variants). -/
def offline_sampling_periods : Nat := 5

/-- `available_cpus = 4` (both variants). -/
def available_cpus : Nat := 4

/-- The effective incremental enable threshold the first variant
computes on line `load_enable = enable_load[online_cpus] * load_multiplier`. -/
def ix1_loadEnable (n mult : Nat) : Nat := enableLoad1 n * mult

/-- Mutable controller state of the first `ix_hotplug` variant: the CPU
pool, the cached `online_cpus` (a static updated at the end of every
tick, zero-initialized), both hysteresis counters (initialized to 1),
the suspend load multiplier and the current sampling rate. -/
structure Ix1State where
  cpus : CpuSet
  online_cpus : Nat
  online_sample : Nat
  offline_sample : Nat
  load_multiplier : Nat
  sampling_rate : Nat
deriving DecidableEq, Repr

/-- The `exit:` tail of the first variant's tick: re-read
`num_online_cpus()` into the cached counter and recompute
`sampling_rate = sample_rate[online_cpus] * load_multiplier`. -/
def ix1_exit (s : Ix1State) : Ix1State :=
  let n := numOnlineCpus s.cpus
  { s with online_cpus := n, sampling_rate := sampleRate1 n * s.load_multiplier }

/-- One tick of the first variant's `hotplug_decision_work_fn`.  Inputs:
the sampled `avg_running` and `io_wait` from `sched_get_nr_running_avg`,
and the per-CPU utilization oracle consumed by `hotplug_offline_work`.
Returns the post-tick state and the unit-state command issued. -/
def ix1_tick (s : Ix1State) (avg io_wait : Nat) (loads : Nat → Nat) :
    Ix1State × HpAction :=
  if avg ≤ disableLoad1 s.online_cpus ∧ 1 < s.online_cpus then
    if offline_sampling_periods ≤ s.offline_sample then
      if io_wait = 0 then
        let victim := offlineIdlestVictim s.cpus loads
        let cpus' := match victim with
          | some i => cpuDown s.cpus i
          | none => s.cpus
        (ix1_exit { s with cpus := cpus', offline_sample := 1, online_sample := 1 },
         HpAction.offlineCall victim)
      else
        (ix1_exit { s with online_sample := 1 }, HpAction.noop)
    else
      (ix1_exit { s with offline_sample := s.offline_sample + 1, online_sample := 1 },
       HpAction.noop)
  else
    if s.online_cpus < available_cpus then
      if enableAllLoad1 ≤ avg then
        (ix1_exit { s with cpus := hotplug_online_all_work s.cpus, offline_sample := 1 },
         HpAction.onlineAllCall)
      else if ix1_loadEnable s.online_cpus s.load_multiplier ≤ avg then
        if online_sampling_periods ≤ s.online_sample then
          (ix1_exit { s with cpus := hotplug_online_single_work s.cpus,
                             online_sample := 1, offline_sample := 1 },
           HpAction.onlineSingleCall)
        else
          (ix1_exit { s with online_sample := s.online_sample + 1, offline_sample := 1 },
           HpAction.noop)
      else
        (ix1_exit s, HpAction.noop)
    else
      (ix1_exit s, HpAction.noop)

/-- Suspend handler `ix_hotplug_suspend` of the first variant: set
`load_multiplier = 2` (under the policy mutex). -/
def ix1_suspend (s : Ix1State) : Ix1State := { s with load_multiplier := 2 }

/-- Resume handler `ix_hotplug_resume` of the first variant: restore
`load_multiplier = 1`. -/
def ix1_resume (s : Ix1State) : Ix1State := { s with load_multiplier := 1 }

/-- The scale-down guard of the first variant,
`avg_running <= disable_load[online_cpus] && online_cpus > 1`. -/
def scaleDownCond1 (s : Ix1State) (avg : Nat) : Prop :=
  avg ≤ disableLoad1 s.online_cpus ∧ 1 < s.online_cpus

/-- Tick trace of the first variant: run one tick per input triple and
record each intermediate result. -/
def ix1_trace (s : Ix1State) : List (Nat × Nat × (Nat → Nat)) → List (Ix1State × HpAction)
  | [] => []
  | (avg, io_wait, loads) :: rest =>
    let r := ix1_tick s avg io_wait loads
    r :: ix1_trace r.1 rest

/-- Iterated ticks of the first variant under a constant input. -/
def ix1_iter (s : Ix1State) (avg io_wait : Nat) (loads : Nat → Nat) : Nat → Ix1State
  | 0 => s
  | j + 1 => (ix1_tick (ix1_iter s avg io_wait loads j) avg io_wait loads).1

/-! ## Second `ix_hotplug` variant: constants and tick -/

/-- `enable_load[5] = {200, 200, 235, 300, 4000}` of the second variant. -/
def enableLoad2 : Nat → Nat
  | 0 => 200
  | 1 => 200
  | 2 => 235
  | 3 => 300
  | 4 => 4000
  | _ => 0

/-- `disable_load = 70` (scalar) in the second variant. -/
def disableLoad2 : Nat := 70

/-- `enable_all_load = 600` in the second variant. -/
def enableAllLoad2 : Nat := 600

/-- Mutable controller state of the second `ix_hotplug` variant: here
`online_cpus` is a tick-local read of `num_online_cpus()`, so only the
pool, the two hysteresis counters and the sampling rate persist. -/
structure Ix2State where
  cpus : CpuSet
  online_sample : Nat
  offline_sample : Nat
  sampling_rate : Nat
deriving DecidableEq, Repr

/-- One tick of the second variant's `hotplug_decision_work_fn`: an
if/else-if chain testing burst scale-up, then incremental scale-up,
then scale-down, exactly in source order. -/
def ix2_tick (s : Ix2State) (avg : Nat) : Ix2State × HpAction :=
  let n := numOnlineCpus s.cpus
  if enableAllLoad2 ≤ avg ∧ n < available_cpus then
    ({ s with cpus := hotplug_online_all_work s.cpus }, HpAction.onlineAllCall)
  else if enableLoad2 n ≤ avg ∧ n < available_cpus then
    if online_sampling_periods ≤ s.online_sample then
      ({ s with cpus := hotplug_online_single_work s.cpus,
                sampling_rate := 50 * n + 50,
                online_sample := 1, offline_sample := 1 },
       HpAction.onlineSingleCall)
    else
      ({ s with online_sample := s.online_sample + 1, offline_sample := 1 },
       HpAction.noop)
  else if avg ≤ disableLoad2 ∧ 1 < n then
    if offline_sampling_periods ≤ s.offline_sample then
      let victim := offlineFirstVictim s.cpus
      let cpus' := match victim with
        | some i => cpuDown s.cpus i
        | none => s.cpus
      ({ s with cpus := cpus', sampling_rate := 50 * n,
                offline_sample := 1, online_sample := 1 },
       HpAction.offlineCall victim)
    else
      ({ s with offline_sample := s.offline_sample + 1, online_sample := 1 },
       HpAction.noop)
  else
    (s, HpAction.noop)

/-- The second variant's tick re-expressed in the rule order the
specification states: scale-down first, then burst scale-up, then
incremental scale-up, with the branch bodies unchanged.  This
definition follows the specification's words; `ix2_tick` follows the
source, and the two are proved equal. -/
def ix2_tickSpecOrder (s : Ix2State) (avg : Nat) : Ix2State × HpAction :=
  let n := numOnlineCpus s.cpus
  if avg ≤ disableLoad2 ∧ 1 < n then
    if offline_sampling_periods ≤ s.offline_sample then
      let victim := offlineFirstVictim s.cpus
      let cpus' := match victim with
        | some i => cpuDown s.cpus i
        | none => s.cpus
      ({ s with cpus := cpus', sampling_rate := 50 * n,
                offline_sample := 1, online_sample := 1 },
       HpAction.offlineCall victim)
    else
      ({ s with offline_sample := s.offline_sample + 1, online_sample := 1 },
       HpAction.noop)
  else if enableAllLoad2 ≤ avg ∧ n < available_cpus then
    ({ s with cpus := hotplug_online_all_work s.cpus }, HpAction.onlineAllCall)
  else if enableLoad2 n ≤ avg ∧ n < available_cpus then
    if online_sampling_periods ≤ s.online_sample then
      ({ s with cpus := hotplug_online_single_work s.cpus,
                sampling_rate := 50 * n + 50,
                online_sample := 1, offline_sample := 1 },
       HpAction.onlineSingleCall)
    else
      ({ s with online_sample := s.online_sample + 1, offline_sample := 1 },
       HpAction.noop)
  else
    (s, HpAction.noop)

/-- Tick trace of the second variant. -/
def ix2_trace (s : Ix2State) : List Nat → List (Ix2State × HpAction)
  | [] => []
  | avg :: rest =>
    let r := ix2_tick s avg
    r :: ix2_trace r.1 rest

/-! ## Helper lemmas -/

lemma numOnlineCpus_le_four (c : CpuSet) : numOnlineCpus c ≤ 4 := by
  rcases c with ⟨a, b, d, e⟩
  cases a <;> cases b <;> cases d <;> cases e <;> decide

lemma enableLoad2_lower {n : Nat} (h : n < 4) : 200 ≤ enableLoad2 n := by
  interval_cases n <;> decide

lemma hotplug_online_single_work_c0 (c : CpuSet) :
    (hotplug_online_single_work c).c0 = c.c0 := by
  unfold hotplug_online_single_work
  split_ifs <;> rfl

lemma cpuDown_c0 (c : CpuSet) (i : Nat) (hi : i ≠ 0) : (cpuDown c i).c0 = c.c0 := by
  unfold cpuDown
  split_ifs <;> simp_all

lemma offlineFirstVictim_spec (c : CpuSet) (i : Nat)
    (h : offlineFirstVictim c = some i) :
    cpuOnline c i = true ∧ i ≠ 0 ∧ ∀ j, 1 ≤ j → j < i → cpuOnline c j = false := by
  rcases c with ⟨a, b, d, e⟩
  cases b <;> cases d <;> cases e <;>
    simp only [offlineFirstVictim, if_true, if_false, Option.some.injEq,
      reduceCtorEq] at h <;>
    subst h <;>
    refine ⟨rfl, by omega, ?_⟩ <;>
    intro j h1 h2 <;>
    first
      | omega
      | (interval_cases j <;> rfl)

lemma offlineIdlestVictim_spec (c : CpuSet) (loads : Nat → Nat) (i : Nat)
    (h : offlineIdlestVictim c loads = some i) :
    cpuOnline c i = true ∧ i ≠ 0 ∧
      ∀ j, j < 4 → j ≠ 0 → cpuOnline c j = true → loads i ≤ loads j := by
  have hj : ∀ j : Nat, j < 4 → j ≠ 0 → j = 1 ∨ j = 2 ∨ j = 3 := by omega
  rcases c with ⟨a, b, d, e⟩
  simp only [offlineIdlestVictim] at h
  cases b <;> cases d <;> cases e
  all_goals simp at h
  all_goals (try split_ifs at h)
  all_goals (try simp at h)
  all_goals (try subst h)
  all_goals refine ⟨rfl, by omega, ?_⟩
  all_goals intro j hj4 hj0 hon
  all_goals rcases hj j hj4 hj0 with rfl | rfl | rfl
  all_goals simp only [cpuOnline] at hon
  all_goals (try simp at hon)
  all_goals (try simp_all)
  all_goals omega

/-- The second variant's burst condition cannot overlap its scale-down
condition, nor can the incremental condition: every per-count enable
threshold reachable under the `n < available_cpus` guard exceeds the
scalar disable threshold. -/
lemma ix2_conds_exclusive (n avg : Nat) (hn : n < 4) :
    ¬ ((avg ≤ disableLoad2 ∧ 1 < n) ∧
       (enableAllLoad2 ≤ avg ∨ enableLoad2 n ≤ avg)) := by
  have h200 := enableLoad2_lower hn
  rintro ⟨⟨h1, h2⟩, h3 | h3⟩ <;>
    simp only [disableLoad2, enableAllLoad2] at * <;> omega

/-- C1: On every tick of the decision engine, the scale-down rule
(`average_running <= disable_load[n]` and `n > min_online_units`) takes
effect first; the burst and incremental scale-up rules act only when it
does not match, and at most one of the four outcomes occurs per tick.
In the first variant the source tests scale-down first; in the second
the source tests burst first, but with the fixed thresholds the rules
are mutually exclusive, so the tick is extensionally equal to the
specification-ordered chain `ix2_tickSpecOrder`. -/
theorem ix_decision_order_first_match_wins :
    (∀ s avg, ix2_tick s avg = ix2_tickSpecOrder s avg) ∧
    (∀ s avg io_wait loads, scaleDownCond1 s avg →
        (ix1_tick s avg io_wait loads).2 ≠ HpAction.onlineAllCall ∧
        (ix1_tick s avg io_wait loads).2 ≠ HpAction.onlineSingleCall) ∧
    (∀ s avg io_wait loads, ¬ scaleDownCond1 s avg →
        ∀ v, (ix1_tick s avg io_wait loads).2 ≠ HpAction.offlineCall v) := by
  refine ⟨?_, ?_, ?_⟩
  · intro s avg
    have hle : numOnlineCpus s.cpus ≤ 4 := numOnlineCpus_le_four s.cpus
    by_cases hb : enableAllLoad2 ≤ avg ∧ numOnlineCpus s.cpus < available_cpus
    · have hnsd : ¬ (avg ≤ disableLoad2 ∧ 1 < numOnlineCpus s.cpus) := by
        intro hsd
        exact ix2_conds_exclusive _ avg hb.2 ⟨hsd, Or.inl hb.1⟩
      simp only [ix2_tick, ix2_tickSpecOrder, if_pos hb, if_neg hnsd]
    · by_cases hi : enableLoad2 (numOnlineCpus s.cpus) ≤ avg ∧
          numOnlineCpus s.cpus < available_cpus
      · have hnsd : ¬ (avg ≤ disableLoad2 ∧ 1 < numOnlineCpus s.cpus) := by
          intro hsd
          exact ix2_conds_exclusive _ avg hi.2 ⟨hsd, Or.inr hi.1⟩
        simp only [ix2_tick, ix2_tickSpecOrder, if_pos hi, if_neg hb, if_neg hnsd]
      · simp only [ix2_tick, ix2_tickSpecOrder, if_neg hb, if_neg hi]
  · intro s avg io_wait loads h
    unfold scaleDownCond1 at h
    unfold ix1_tick
    rw [if_pos h]
    split_ifs <;> simp
  · intro s avg io_wait loads h v
    unfold scaleDownCond1 at h
    unfold ix1_tick
    rw [if_neg h]
    split_ifs <;> simp

/-- Witness for C1: at a two-CPU state under zero load the scale-down
rule matches and the tick does not online all CPUs. -/
theorem ix_decision_order_first_match_wins_witness :
    (ix1_tick ⟨⟨true, true, false, false⟩, 2, 1, 1, 1, 125⟩ 0 0 (fun _ => 0)).2 ≠
      HpAction.onlineAllCall :=
  (ix_decision_order_first_match_wins.2.1 ⟨⟨true, true, false, false⟩, 2, 1, 1, 1, 125⟩
    0 0 (fun _ => 0) ⟨by decide, by decide⟩).1

lemma ix1_exit_cpus (s : Ix1State) : (ix1_exit s).cpus = s.cpus := rfl

lemma numOnlineCpus_pos (c : CpuSet) (h : c.c0 = true) : 1 ≤ numOnlineCpus c := by
  rcases c with ⟨a, b, d, e⟩
  simp only at h
  subst h
  cases b <;> cases d <;> cases e <;> decide

lemma ix1_tick_c0 (s : Ix1State) (avg io_wait : Nat) (loads : Nat → Nat)
    (h : s.cpus.c0 = true) :
    ((ix1_tick s avg io_wait loads).1).cpus.c0 = true := by
  rcases hv : offlineIdlestVictim s.cpus loads with _ | i
  · simp only [ix1_tick, hv]
    split_ifs <;>
      simp [ix1_exit, hotplug_online_all_work, hotplug_online_single_work_c0, h]
  · have hi := (offlineIdlestVictim_spec _ _ _ hv).2.1
    simp only [ix1_tick, hv]
    split_ifs <;>
      simp [ix1_exit, hotplug_online_all_work, hotplug_online_single_work_c0,
        cpuDown_c0 _ _ hi, h]

lemma ix1_tick_victim (s : Ix1State) (avg io_wait : Nat) (loads : Nat → Nat)
    (i : Nat) (h : (ix1_tick s avg io_wait loads).2 = HpAction.offlineCall (some i)) :
    i ≠ 0 := by
  unfold ix1_tick at h
  split_ifs at h
  all_goals simp at h
  exact (offlineIdlestVictim_spec _ _ _ h).2.1

lemma ix2_tick_c0 (s : Ix2State) (avg : Nat) (h : s.cpus.c0 = true) :
    ((ix2_tick s avg).1).cpus.c0 = true := by
  rcases hv : offlineFirstVictim s.cpus with _ | i
  · simp only [ix2_tick, hv]
    split_ifs <;>
      simp [hotplug_online_all_work, hotplug_online_single_work_c0, h]
  · have hi := (offlineFirstVictim_spec _ _ hv).2.1
    simp only [ix2_tick, hv]
    split_ifs <;>
      simp [hotplug_online_all_work, hotplug_online_single_work_c0,
        cpuDown_c0 _ _ hi, h]

lemma ix2_tick_victim (s : Ix2State) (avg : Nat)
    (i : Nat) (h : (ix2_tick s avg).2 = HpAction.offlineCall (some i)) :
    i ≠ 0 := by
  rcases hv : offlineFirstVictim s.cpus with _ | k
  · simp only [ix2_tick, hv] at h
    split_ifs at h
    all_goals simp at h
  · have hk := (offlineFirstVictim_spec _ _ hv).2.1
    simp only [ix2_tick, hv] at h
    split_ifs at h
    all_goals simp at h
    all_goals omega

/-- C2: for every load sequence, every state reached by either
`ix_hotplug` decision engine from a state with unit 0 online keeps unit
0 online and keeps the online count at or above the floor of 1 enforced
by the `online_cpus > 1` guard, and every `cpu_down` issued by a
scale-down decision targets a unit other than unit 0. -/
theorem hotplug_min_online_floor :
    (∀ s inputs, s.cpus.c0 = true →
       ∀ p ∈ ix1_trace s inputs,
         p.1.cpus.c0 = true ∧ 1 ≤ numOnlineCpus p.1.cpus ∧
         ∀ i, p.2 = HpAction.offlineCall (some i) → i ≠ 0) ∧
    (∀ s inputs, s.cpus.c0 = true →
       ∀ p ∈ ix2_trace s inputs,
         p.1.cpus.c0 = true ∧ 1 ≤ numOnlineCpus p.1.cpus ∧
         ∀ i, p.2 = HpAction.offlineCall (some i) → i ≠ 0) := by
  constructor
  · intro s inputs
    induction inputs generalizing s with
    | nil =>
      intro h p hp
      simp [ix1_trace] at hp
    | cons x rest ih =>
      obtain ⟨avg, io_wait, loads⟩ := x
      intro h p hp
      simp only [ix1_trace, List.mem_cons] at hp
      rcases hp with rfl | hp
      · have hc0 := ix1_tick_c0 s avg io_wait loads h
        exact ⟨hc0, numOnlineCpus_pos _ hc0,
          fun i hi => ix1_tick_victim s avg io_wait loads i hi⟩
      · exact ih _ (ix1_tick_c0 s avg io_wait loads h) p hp
  · intro s inputs
    induction inputs generalizing s with
    | nil =>
      intro h p hp
      simp [ix2_trace] at hp
    | cons avg rest ih =>
      intro h p hp
      simp only [ix2_trace, List.mem_cons] at hp
      rcases hp with rfl | hp
      · have hc0 := ix2_tick_c0 s avg h
        exact ⟨hc0, numOnlineCpus_pos _ hc0,
          fun i hi => ix2_tick_victim s avg i hi⟩
      · exact ih _ (ix2_tick_c0 s avg h) p hp

/-- Witness for C2: one fully-online tick of the first variant under
zero load keeps at least one unit online. -/
theorem hotplug_min_online_floor_witness :
    1 ≤ numOnlineCpus ((ix1_tick ⟨⟨true, true, true, true⟩, 4, 1, 1, 1, 150⟩
      50 0 (fun _ => 0)).1).cpus :=
  (hotplug_min_online_floor.1 ⟨⟨true, true, true, true⟩, 4, 1, 1, 1, 150⟩
    [(50, 0, fun _ => 0)] rfl _ (by simp [ix1_trace])).2.1

lemma disableLoad1_le (n : Nat) : disableLoad1 n ≤ 225 := by
  rcases n with _ | _ | _ | _ | _ | n <;> simp [disableLoad1]

/-- C10: in the first `ix_hotplug` variant, when the scale-down
condition holds and the offline streak has reached
`offline_sampling_periods` but the sampled `io_wait` is nonzero, no
unit is deactivated, `offline_sample` keeps its current value, and
`online_sample` is still reset to 1. -/
theorem ix1_iowait_blocks_offline (s : Ix1State) (avg io_wait : Nat) (loads : Nat → Nat)
    (hsd : avg ≤ disableLoad1 s.online_cpus) (hn : 1 < s.online_cpus)
    (hoff : offline_sampling_periods ≤ s.offline_sample) (hio : io_wait ≠ 0) :
    (ix1_tick s avg io_wait loads).2 = HpAction.noop ∧
    ((ix1_tick s avg io_wait loads).1).cpus = s.cpus ∧
    ((ix1_tick s avg io_wait loads).1).offline_sample = s.offline_sample ∧
    ((ix1_tick s avg io_wait loads).1).online_sample = 1 := by
  unfold ix1_tick
  rw [if_pos (And.intro hsd hn), if_pos hoff, if_neg hio]
  exact ⟨rfl, rfl, rfl, rfl⟩

/-- Witness for C10: a two-CPU state with a saturated offline streak
and nonzero io-wait keeps its offline streak. -/
theorem ix1_iowait_blocks_offline_witness :
    (ix1_tick ⟨⟨true, true, false, false⟩, 2, 1, 5, 1, 125⟩ 0 7 (fun _ => 0)).2 =
      HpAction.noop ∧
    ((ix1_tick ⟨⟨true, true, false, false⟩, 2, 1, 5, 1, 125⟩ 0 7 (fun _ => 0)).1).cpus =
      ⟨true, true, false, false⟩ ∧
    ((ix1_tick ⟨⟨true, true, false, false⟩, 2, 1, 5, 1, 125⟩ 0 7 (fun _ => 0)).1).offline_sample = 5 ∧
    ((ix1_tick ⟨⟨true, true, false, false⟩, 2, 1, 5, 1, 125⟩ 0 7 (fun _ => 0)).1).online_sample = 1 :=
  ix1_iowait_blocks_offline ⟨⟨true, true, false, false⟩, 2, 1, 5, 1, 125⟩ 0 7 (fun _ => 0)
    (by decide) (by decide) (by decide) (by decide)

/-- Counterexample for C4: in the second variant a burst tick
(`avg_running >= enable_all_load` with offline units) onlines all CPUs
but leaves `offline_sample` at its old value 3 instead of resetting it
to 1, contradicting the claimed reset. -/
theorem ix2_burst_keeps_offline_streak :
    (ix2_tick ⟨⟨true, false, false, false⟩, 1, 3, 100⟩ 600).2 = HpAction.onlineAllCall ∧
    ((ix2_tick ⟨⟨true, false, false, false⟩, 1, 3, 100⟩ 600).1).offline_sample ≠ 1 := by
  constructor <;> decide

/-- C4 (amended): a tick sampling `avg_running >= enable_all_load` with
fewer than `available_cpus` units online activates every offline unit
during that same tick regardless of the hysteresis streak values; the
first variant additionally resets `offline_sample` to 1, while the
second variant leaves both streak counters unchanged. -/
theorem hotplug_burst_bypass (s1 : Ix1State) (s2 : Ix2State) (avg1 avg2 io_wait : Nat)
    (loads : Nat → Nat)
    (hb1 : enableAllLoad1 ≤ avg1) (hn1 : s1.online_cpus < available_cpus)
    (hb2 : enableAllLoad2 ≤ avg2) (hn2 : numOnlineCpus s2.cpus < available_cpus) :
    ((ix1_tick s1 avg1 io_wait loads).2 = HpAction.onlineAllCall ∧
     ((ix1_tick s1 avg1 io_wait loads).1).cpus = ⟨true, true, true, true⟩ ∧
     ((ix1_tick s1 avg1 io_wait loads).1).offline_sample = 1 ∧
     ((ix1_tick s1 avg1 io_wait loads).1).online_sample = s1.online_sample) ∧
    ((ix2_tick s2 avg2).2 = HpAction.onlineAllCall ∧
     ((ix2_tick s2 avg2).1).cpus = ⟨true, true, true, true⟩ ∧
     ((ix2_tick s2 avg2).1).offline_sample = s2.offline_sample ∧
     ((ix2_tick s2 avg2).1).online_sample = s2.online_sample) := by
  constructor
  · have hnsd : ¬ (avg1 ≤ disableLoad1 s1.online_cpus ∧ 1 < s1.online_cpus) := by
      have := disableLoad1_le s1.online_cpus
      simp only [enableAllLoad1] at hb1
      intro hsd
      omega
    unfold ix1_tick
    rw [if_neg hnsd, if_pos hn1, if_pos hb1]
    exact ⟨rfl, rfl, rfl, rfl⟩
  · unfold ix2_tick
    rw [if_pos (And.intro hb2 hn2)]
    exact ⟨rfl, rfl, rfl, rfl⟩

/-- Witness for C4 (amended): burst ticks from a single-CPU state in
both variants online all CPUs. -/
theorem hotplug_burst_bypass_witness :
    ((ix1_tick ⟨⟨true, false, false, false⟩, 1, 2, 4, 1, 100⟩ 700 0 (fun _ => 0)).2 =
       HpAction.onlineAllCall ∧
     ((ix1_tick ⟨⟨true, false, false, false⟩, 1, 2, 4, 1, 100⟩ 700 0 (fun _ => 0)).1).cpus =
       ⟨true, true, true, true⟩ ∧
     ((ix1_tick ⟨⟨true, false, false, false⟩, 1, 2, 4, 1, 100⟩ 700 0 (fun _ => 0)).1).offline_sample = 1 ∧
     ((ix1_tick ⟨⟨true, false, false, false⟩, 1, 2, 4, 1, 100⟩ 700 0 (fun _ => 0)).1).online_sample = 2) ∧
    ((ix2_tick ⟨⟨true, false, false, false⟩, 2, 4, 100⟩ 650).2 = HpAction.onlineAllCall ∧
     ((ix2_tick ⟨⟨true, false, false, false⟩, 2, 4, 100⟩ 650).1).cpus = ⟨true, true, true, true⟩ ∧
     ((ix2_tick ⟨⟨true, false, false, false⟩, 2, 4, 100⟩ 650).1).offline_sample = 4 ∧
     ((ix2_tick ⟨⟨true, false, false, false⟩, 2, 4, 100⟩ 650).1).online_sample = 2) :=
  hotplug_burst_bypass ⟨⟨true, false, false, false⟩, 1, 2, 4, 1, 100⟩
    ⟨⟨true, false, false, false⟩, 2, 4, 100⟩ 700 650 0 (fun _ => 0)
    (by decide) (by decide) (by decide) (by decide)

/-- C6: the suspend handler raises the effective incremental enable
threshold of a tick at online count `n` to `enable_load[n] * 2`, and
the matching resume handler restores it to `enable_load[n] * 1`; a
suspend followed by a resume restores the pre-suspend policy state
exactly. -/
theorem ix1_suspend_resume_threshold (s : Ix1State) (n : Nat)
    (h : s.load_multiplier = 1) :
    ix1_loadEnable n (ix1_suspend s).load_multiplier = enableLoad1 n * 2 ∧
    ix1_loadEnable n (ix1_resume (ix1_suspend s)).load_multiplier = enableLoad1 n * 1 ∧
    ix1_resume (ix1_suspend s) = s := by
  refine ⟨rfl, rfl, ?_⟩
  cases s
  simp_all [ix1_resume, ix1_suspend]

/-- Witness for C6: the suspend/resume round trip at a concrete
two-CPU state and count 2. -/
theorem ix1_suspend_resume_threshold_witness :
    ix1_loadEnable 2 (ix1_suspend ⟨⟨true, true, false, false⟩, 2, 1, 1, 1, 125⟩).load_multiplier =
      enableLoad1 2 * 2 ∧
    ix1_loadEnable 2 (ix1_resume (ix1_suspend ⟨⟨true, true, false, false⟩, 2, 1, 1, 1, 125⟩)).load_multiplier =
      enableLoad1 2 * 1 ∧
    ix1_resume (ix1_suspend ⟨⟨true, true, false, false⟩, 2, 1, 1, 1, 125⟩) =
      ⟨⟨true, true, false, false⟩, 2, 1, 1, 1, 125⟩ :=
  ix1_suspend_resume_threshold ⟨⟨true, true, false, false⟩, 2, 1, 1, 1, 125⟩ 2 rfl

lemma ix1_tick_noop (s : Ix1State) (avg io_wait : Nat) (loads : Nat → Nat)
    (hm : 1 ≤ s.load_multiplier)
    (h1 : disableLoad1 s.online_cpus < avg)
    (h2 : avg < enableLoad1 s.online_cpus)
    (h3 : avg < enableAllLoad1) :
    ix1_tick s avg io_wait loads = (ix1_exit s, HpAction.noop) := by
  have hmul : enableLoad1 s.online_cpus ≤ enableLoad1 s.online_cpus * s.load_multiplier :=
    Nat.le_mul_of_pos_right _ hm
  have hnsd : ¬ (avg ≤ disableLoad1 s.online_cpus ∧ 1 < s.online_cpus) := by omega
  have hnb : ¬ (enableAllLoad1 ≤ avg) := by omega
  have hni : ¬ (ix1_loadEnable s.online_cpus s.load_multiplier ≤ avg) := fun hc =>
    absurd (le_trans hmul hc) (by omega)
  unfold ix1_tick
  rw [if_neg hnsd]
  by_cases hn4 : s.online_cpus < available_cpus
  · rw [if_pos hn4, if_neg hnb, if_neg hni]
  · rw [if_neg hn4]

/-- C5: at a consistent online count `n` with
`disable_load[n] < enable_load[n]`, feeding a constant load sample
strictly between the two thresholds (and below `enable_all_load`)
produces a no-op on every tick indefinitely and leaves the hysteresis
counters, the CPU pool, the cached count and the multiplier unchanged. -/
theorem ix1_no_oscillation (s : Ix1State) (avg io_wait : Nat) (loads : Nat → Nat)
    (hn : s.online_cpus = numOnlineCpus s.cpus)
    (hm : 1 ≤ s.load_multiplier)
    (hcfg : disableLoad1 s.online_cpus < enableLoad1 s.online_cpus)
    (h1 : disableLoad1 s.online_cpus < avg)
    (h2 : avg < enableLoad1 s.online_cpus)
    (h3 : avg < enableAllLoad1) :
    ∀ j,
      (ix1_iter s avg io_wait loads j).cpus = s.cpus ∧
      (ix1_iter s avg io_wait loads j).online_cpus = s.online_cpus ∧
      (ix1_iter s avg io_wait loads j).online_sample = s.online_sample ∧
      (ix1_iter s avg io_wait loads j).offline_sample = s.offline_sample ∧
      (ix1_iter s avg io_wait loads j).load_multiplier = s.load_multiplier ∧
      (ix1_tick (ix1_iter s avg io_wait loads j) avg io_wait loads).2 = HpAction.noop := by
  intro j
  induction j with
  | zero =>
    refine ⟨rfl, rfl, rfl, rfl, rfl, ?_⟩
    show (ix1_tick s avg io_wait loads).2 = HpAction.noop
    rw [ix1_tick_noop s avg io_wait loads hm h1 h2 h3]
  | succ j ih =>
    obtain ⟨hc, ho, hos, hofs, hlm, _⟩ := ih
    have ht : ix1_tick (ix1_iter s avg io_wait loads j) avg io_wait loads =
        (ix1_exit (ix1_iter s avg io_wait loads j), HpAction.noop) :=
      ix1_tick_noop _ avg io_wait loads (by omega) (by rw [ho]; exact h1)
        (by rw [ho]; exact h2) h3
    have hstep : ix1_iter s avg io_wait loads (j + 1) =
        ix1_exit (ix1_iter s avg io_wait loads j) := by
      show (ix1_tick (ix1_iter s avg io_wait loads j) avg io_wait loads).1 = _
      rw [ht]
    have hc' : (ix1_iter s avg io_wait loads (j + 1)).cpus = s.cpus := by
      rw [hstep]; exact hc
    have ho' : (ix1_iter s avg io_wait loads (j + 1)).online_cpus = s.online_cpus := by
      rw [hstep]
      show numOnlineCpus (ix1_iter s avg io_wait loads j).cpus = s.online_cpus
      rw [hc, ← hn]
    have hos' : (ix1_iter s avg io_wait loads (j + 1)).online_sample = s.online_sample := by
      rw [hstep]; exact hos
    have hofs' : (ix1_iter s avg io_wait loads (j + 1)).offline_sample = s.offline_sample := by
      rw [hstep]; exact hofs
    have hlm' : (ix1_iter s avg io_wait loads (j + 1)).load_multiplier = s.load_multiplier := by
      rw [hstep]; exact hlm
    refine ⟨hc', ho', hos', hofs', hlm', ?_⟩
    rw [ix1_tick_noop _ avg io_wait loads (by omega) (by rw [ho']; exact h1)
      (by rw [ho']; exact h2) h3]

/-- Witness for C5: a two-CPU state fed a constant sample of 100
(between `disable_load[2] = 70` and `enable_load[2] = 235`) is
unchanged after three ticks and the next tick is still a no-op. -/
theorem ix1_no_oscillation_witness :
    (ix1_iter ⟨⟨true, true, false, false⟩, 2, 1, 1, 1, 125⟩ 100 0 (fun _ => 0) 3).online_sample = 1 ∧
    (ix1_tick (ix1_iter ⟨⟨true, true, false, false⟩, 2, 1, 1, 1, 125⟩ 100 0 (fun _ => 0) 3)
      100 0 (fun _ => 0)).2 = HpAction.noop := by
  have h := ix1_no_oscillation ⟨⟨true, true, false, false⟩, 2, 1, 1, 1, 125⟩ 100 0 (fun _ => 0)
    (by decide) (by decide) (by decide) (by decide) (by decide) (by decide) 3
  exact ⟨h.2.2.1, h.2.2.2.2.2⟩

lemma enableLoad1_le (n : Nat) : enableLoad1 n ≤ 300 := by
  rcases n with _ | _ | _ | _ | n <;> simp [enableLoad1]

lemma disable_lt_enable1 (n : Nat) (h1 : 1 ≤ n) (h4 : n < 4) :
    disableLoad1 n < enableLoad1 n := by
  have hc : n = 1 ∨ n = 2 ∨ n = 3 := by omega
  rcases hc with h | h | h <;> rw [h] <;> decide

lemma ix1_tick_incr_count (s : Ix1State) (avg io_wait : Nat) (loads : Nat → Nat)
    (hge1 : 1 ≤ s.online_cpus) (hlt4 : s.online_cpus < available_cpus)
    (hm1 : 1 ≤ s.load_multiplier)
    (hq : ix1_loadEnable s.online_cpus s.load_multiplier ≤ avg)
    (hb : avg < enableAllLoad1)
    (hcnt : s.online_sample < online_sampling_periods) :
    ix1_tick s avg io_wait loads =
      (ix1_exit { s with online_sample := s.online_sample + 1, offline_sample := 1 },
       HpAction.noop) := by
  have havail : available_cpus = 4 := rfl
  have hen : disableLoad1 s.online_cpus < enableLoad1 s.online_cpus :=
    disable_lt_enable1 _ hge1 (by omega)
  have hmul : enableLoad1 s.online_cpus ≤ ix1_loadEnable s.online_cpus s.load_multiplier :=
    Nat.le_mul_of_pos_right _ hm1
  have havgE : enableLoad1 s.online_cpus ≤ avg := le_trans hmul hq
  have hnsd : ¬ (avg ≤ disableLoad1 s.online_cpus ∧ 1 < s.online_cpus) := by omega
  have hnb : ¬ (enableAllLoad1 ≤ avg) := by omega
  have hncnt : ¬ (online_sampling_periods ≤ s.online_sample) := by omega
  unfold ix1_tick
  rw [if_neg hnsd, if_pos hlt4, if_neg hnb, if_pos hq, if_neg hncnt]

lemma ix1_tick_incr_fire (s : Ix1State) (avg io_wait : Nat) (loads : Nat → Nat)
    (hge1 : 1 ≤ s.online_cpus) (hlt4 : s.online_cpus < available_cpus)
    (hm1 : 1 ≤ s.load_multiplier)
    (hq : ix1_loadEnable s.online_cpus s.load_multiplier ≤ avg)
    (hb : avg < enableAllLoad1)
    (hcnt : online_sampling_periods ≤ s.online_sample) :
    ix1_tick s avg io_wait loads =
      (ix1_exit { s with cpus := hotplug_online_single_work s.cpus,
                         online_sample := 1, offline_sample := 1 },
       HpAction.onlineSingleCall) := by
  have havail : available_cpus = 4 := rfl
  have hen : disableLoad1 s.online_cpus < enableLoad1 s.online_cpus :=
    disable_lt_enable1 _ hge1 (by omega)
  have hmul : enableLoad1 s.online_cpus ≤ ix1_loadEnable s.online_cpus s.load_multiplier :=
    Nat.le_mul_of_pos_right _ hm1
  have havgE : enableLoad1 s.online_cpus ≤ avg := le_trans hmul hq
  have hnsd : ¬ (avg ≤ disableLoad1 s.online_cpus ∧ 1 < s.online_cpus) := by omega
  have hnb : ¬ (enableAllLoad1 ≤ avg) := by omega
  unfold ix1_tick
  rw [if_neg hnsd, if_pos hlt4, if_neg hnb, if_pos hq, if_pos hcnt]

lemma ix1_tick_no_activation (s : Ix1State) (avg io_wait : Nat) (loads : Nat → Nat)
    (hb : avg < enableAllLoad1)
    (hi : avg < ix1_loadEnable s.online_cpus s.load_multiplier) :
    (ix1_tick s avg io_wait loads).2 = HpAction.noop ∨
    ∃ v, (ix1_tick s avg io_wait loads).2 = HpAction.offlineCall v := by
  unfold ix1_tick
  split_ifs <;>
    first
      | (left; rfl)
      | (right; exact ⟨_, rfl⟩)
      | exact (by omega : False).elim

/-- C3: with the code's `online_sampling_periods = 3` and the online
streak at its initial value 1, two consecutive ticks satisfying the
incremental scale-up condition followed by a tick whose sample drops
below the effective enable threshold never trigger an activation, while
three consecutive qualifying ticks trigger exactly one activation,
occurring on the third tick. -/
theorem ix1_hysteresis_exact (s : Ix1State) (a1 a2 a3 io1 io2 io3 : Nat)
    (l1 l2 l3 : Nat → Nat)
    (hn : s.online_cpus = numOnlineCpus s.cpus)
    (hge1 : 1 ≤ s.online_cpus) (hlt4 : s.online_cpus < available_cpus)
    (hos : s.online_sample = 1)
    (hm1 : 1 ≤ s.load_multiplier) (hm2 : s.load_multiplier ≤ 2)
    (hq1a : ix1_loadEnable s.online_cpus s.load_multiplier ≤ a1)
    (hq1b : a1 < enableAllLoad1)
    (hq2a : ix1_loadEnable s.online_cpus s.load_multiplier ≤ a2)
    (hq2b : a2 < enableAllLoad1) :
    (ix1_tick s a1 io1 l1).2 = HpAction.noop ∧
    (ix1_tick (ix1_tick s a1 io1 l1).1 a2 io2 l2).2 = HpAction.noop ∧
    (a3 < ix1_loadEnable s.online_cpus s.load_multiplier →
       (ix1_tick (ix1_tick (ix1_tick s a1 io1 l1).1 a2 io2 l2).1 a3 io3 l3).2 ≠
         HpAction.onlineSingleCall ∧
       (ix1_tick (ix1_tick (ix1_tick s a1 io1 l1).1 a2 io2 l2).1 a3 io3 l3).2 ≠
         HpAction.onlineAllCall) ∧
    (ix1_loadEnable s.online_cpus s.load_multiplier ≤ a3 → a3 < enableAllLoad1 →
       (ix1_tick (ix1_tick (ix1_tick s a1 io1 l1).1 a2 io2 l2).1 a3 io3 l3).2 =
         HpAction.onlineSingleCall) := by
  have hper : online_sampling_periods = 3 := rfl
  have h700 : enableAllLoad1 = 700 := rfl
  have ht1 : ix1_tick s a1 io1 l1 =
      (ix1_exit { s with online_sample := s.online_sample + 1, offline_sample := 1 },
       HpAction.noop) :=
    ix1_tick_incr_count s a1 io1 l1 hge1 hlt4 hm1 hq1a hq1b (by omega)
  have e1 : (ix1_tick s a1 io1 l1).1 =
      ix1_exit { s with online_sample := s.online_sample + 1, offline_sample := 1 } := by
    rw [ht1]
  set S1 : Ix1State :=
    ix1_exit { s with online_sample := s.online_sample + 1, offline_sample := 1 } with hS1
  have hS1o : S1.online_cpus = s.online_cpus := hn.symm
  have hS1m : S1.load_multiplier = s.load_multiplier := rfl
  have hS1s : S1.online_sample = s.online_sample + 1 := rfl
  have hS1c : S1.cpus = s.cpus := rfl
  have ht2 : ix1_tick S1 a2 io2 l2 =
      (ix1_exit { S1 with online_sample := S1.online_sample + 1, offline_sample := 1 },
       HpAction.noop) :=
    ix1_tick_incr_count S1 a2 io2 l2 (by omega) (by rw [hS1o]; exact hlt4) (by omega)
      (by rw [hS1o, hS1m]; exact hq2a) hq2b (by omega)
  have e2 : (ix1_tick (ix1_tick s a1 io1 l1).1 a2 io2 l2).1 =
      ix1_exit { S1 with online_sample := S1.online_sample + 1, offline_sample := 1 } := by
    rw [e1, ht2]
  set S2 : Ix1State :=
    ix1_exit { S1 with online_sample := S1.online_sample + 1, offline_sample := 1 } with hS2
  have hS2o : S2.online_cpus = s.online_cpus := by
    show numOnlineCpus S1.cpus = s.online_cpus
    rw [hS1c, ← hn]
  have hS2m : S2.load_multiplier = s.load_multiplier := rfl
  have hS2s : S2.online_sample = s.online_sample + 2 := rfl
  refine ⟨by rw [ht1], by rw [e1, ht2], ?_, ?_⟩
  · intro h3
    have hEM : ix1_loadEnable s.online_cpus s.load_multiplier ≤ 600 := by
      have hE : enableLoad1 s.online_cpus ≤ 300 := enableLoad1_le _
      calc enableLoad1 s.online_cpus * s.load_multiplier ≤ 300 * 2 :=
            Nat.mul_le_mul hE hm2
        _ = 600 := rfl
    have hb3 : a3 < enableAllLoad1 := by omega
    have hi3 : a3 < ix1_loadEnable S2.online_cpus S2.load_multiplier := by
      rw [hS2o, hS2m]; exact h3
    rw [e2]
    rcases ix1_tick_no_activation S2 a3 io3 l3 hb3 hi3 with h | ⟨v, h⟩ <;>
      rw [h] <;> exact ⟨by simp, by simp⟩
  · intro hq3a hq3b
    have ht3 : ix1_tick S2 a3 io3 l3 =
        (ix1_exit { S2 with cpus := hotplug_online_single_work S2.cpus,
                            online_sample := 1, offline_sample := 1 },
         HpAction.onlineSingleCall) :=
      ix1_tick_incr_fire S2 a3 io3 l3 (by omega) (by rw [hS2o]; exact hlt4) (by omega)
        (by rw [hS2o, hS2m]; exact hq3a) hq3b (by omega)
    rw [e2, ht3]

/-- Witness for C3: from a single-CPU state with streak 1, a constant
qualifying sample of 250 yields no-ops on ticks 1 and 2 and the
activation on tick 3. -/
theorem ix1_hysteresis_exact_witness :
    (ix1_tick ⟨⟨true, false, false, false⟩, 1, 1, 1, 1, 100⟩ 250 0 (fun _ => 0)).2 =
      HpAction.noop ∧
    (ix1_tick (ix1_tick ⟨⟨true, false, false, false⟩, 1, 1, 1, 1, 100⟩ 250 0 (fun _ => 0)).1
      250 0 (fun _ => 0)).2 = HpAction.noop ∧
    (ix1_tick (ix1_tick (ix1_tick ⟨⟨true, false, false, false⟩, 1, 1, 1, 1, 100⟩ 250 0
      (fun _ => 0)).1 250 0 (fun _ => 0)).1 250 0 (fun _ => 0)).2 =
      HpAction.onlineSingleCall := by
  have h := ix1_hysteresis_exact ⟨⟨true, false, false, false⟩, 1, 1, 1, 1, 100⟩
    250 250 250 0 0 0 (fun _ => 0) (fun _ => 0) (fun _ => 0)
    (by decide) (by decide) (by decide) (by decide) (by decide) (by decide)
    (by decide) (by decide) (by decide) (by decide)
  exact ⟨h.1, h.2.1, h.2.2.2 (by decide) (by decide)⟩

/-- C7: under monotone cumulative counters whose per-tick deltas fit in
32 bits, `get_cpu_load` stores the new baselines, returns 0 whenever the
wall delta is zero or smaller than the idle delta, and otherwise returns
`100 * (wall_delta - idle_delta) / wall_delta` scaled by
`cur_freq / max_freq` in integer arithmetic. -/
theorem get_cpu_load_formula (p : CpuLoadData) (cur_wall cur_idle cur_freq max_freq : Nat)
    (hw : p.prev_cpu_wall ≤ cur_wall) (hwd : cur_wall - p.prev_cpu_wall < 4294967296)
    (hi : p.prev_cpu_idle ≤ cur_idle) (hid : cur_idle - p.prev_cpu_idle < 4294967296) :
    (get_cpu_load p cur_wall cur_idle cur_freq max_freq).2 = ⟨cur_idle, cur_wall⟩ ∧
    (cur_wall - p.prev_cpu_wall = 0 ∨
        cur_wall - p.prev_cpu_wall < cur_idle - p.prev_cpu_idle →
      (get_cpu_load p cur_wall cur_idle cur_freq max_freq).1 = 0) ∧
    (cur_wall - p.prev_cpu_wall ≠ 0 →
      cur_idle - p.prev_cpu_idle ≤ cur_wall - p.prev_cpu_wall →
      (get_cpu_load p cur_wall cur_idle cur_freq max_freq).1 =
        100 * ((cur_wall - p.prev_cpu_wall) - (cur_idle - p.prev_cpu_idle)) /
          (cur_wall - p.prev_cpu_wall) * cur_freq / max_freq) := by
  have ew : sub64 cur_wall p.prev_cpu_wall % 4294967296 = cur_wall - p.prev_cpu_wall := by
    unfold sub64; omega
  have ei : sub64 cur_idle p.prev_cpu_idle % 4294967296 = cur_idle - p.prev_cpu_idle := by
    unfold sub64; omega
  simp only [get_cpu_load, ew, ei]
  refine ⟨by split_ifs <;> rfl, ?_, ?_⟩
  · intro h
    rw [if_pos h]
  · intro h1 h2
    rw [if_neg (by omega)]

/-- Witness for C7: concrete counters with wall delta 400 and idle
delta 100 give utilization 75 at equal frequencies. -/
theorem get_cpu_load_formula_witness :
    (get_cpu_load ⟨100, 200⟩ 600 200 1 1).2 = ⟨200, 600⟩ ∧
    (get_cpu_load ⟨100, 200⟩ 600 200 1 1).1 =
      100 * ((600 - 200) - (200 - 100)) / (600 - 200) * 1 / 1 := by
  have h := get_cpu_load_formula ⟨100, 200⟩ 600 200 1 1
    (by decide) (by decide) (by decide) (by decide)
  exact ⟨h.1, h.2.2 (by decide) (by decide)⟩

/-- Counterexample for C8: the per-CPU baselines are zero-initialized
and `get_cpu_load` has no first-invocation guard, so the very first
call (baselines `⟨0, 0⟩`) with cumulative wall 1000 and idle 500 at
equal frequencies returns 50, not 0. -/
theorem get_cpu_load_first_call_nonzero :
    (get_cpu_load ⟨0, 0⟩ 1000 500 1 1).1 = 50 ∧
    (get_cpu_load ⟨0, 0⟩ 1000 500 1 1).1 ≠ 0 := by
  constructor <;> decide

/-- C8 (amended): on the first invocation for a unit the baselines are
zero, so the deltas equal the truncated cumulative wall/idle times and
the call returns the utilization accumulated since boot — zero exactly
when the cumulative wall time is zero or below the cumulative idle
time, and nonzero otherwise; it is not guaranteed to be 0. -/
theorem get_cpu_load_first_call (cur_wall cur_idle cur_freq max_freq : Nat)
    (hw : cur_wall < 4294967296) (hi : cur_idle < 4294967296) :
    (get_cpu_load ⟨0, 0⟩ cur_wall cur_idle cur_freq max_freq).1 =
      if cur_wall = 0 ∨ cur_wall < cur_idle then 0
      else 100 * (cur_wall - cur_idle) / cur_wall * cur_freq / max_freq := by
  have ew : sub64 cur_wall (0 : Nat) % 4294967296 = cur_wall := by
    unfold sub64; omega
  have ei : sub64 cur_idle (0 : Nat) % 4294967296 = cur_idle := by
    unfold sub64; omega
  simp only [get_cpu_load]
  rw [ew, ei]
  split_ifs <;> rfl

/-- Witness for C8 (amended): the first call at cumulative wall 1000
and idle 500 follows the since-boot formula. -/
theorem get_cpu_load_first_call_witness :
    (get_cpu_load ⟨0, 0⟩ 1000 500 1 1).1 =
      if (1000 : Nat) = 0 ∨ (1000 : Nat) < 500 then 0
      else 100 * (1000 - 500) / 1000 * 1 / 1 :=
  get_cpu_load_first_call 1000 500 1 1 (by decide) (by decide)

/-- Counterexample for C9: with all four units online and a saturated
offline streak, a scale-down tick of the second variant deactivates
unit 1 — the lowest-indexed non-zero unit — even though unit 3 is the
highest-indexed online unit and, under a utilization oracle giving unit
2 a strictly lower load than unit 1, unit 1 is not the least-loaded
unit either. -/
theorem ix2_victim_not_highest :
    (ix2_tick ⟨⟨true, true, true, true⟩, 1, 5, 100⟩ 50).2 =
      HpAction.offlineCall (some 1) ∧
    cpuOnline ⟨true, true, true, true⟩ 3 = true ∧ (1 : Nat) ≠ 3 ∧
    (fun i : Nat => if i = 2 then 10 else 50) 2 <
      (fun i : Nat => if i = 2 then 10 else 50) 1 := by
  refine ⟨by decide, by decide, by decide, by decide⟩

/-- C9 (amended): whenever a scale-down action deactivates a unit, the
victim is an online unit other than unit 0, chosen as the online unit
with the lowest computed per-unit utilization in the first (load-aware)
`ix_hotplug` variant, and as the lowest-indexed online unit excluding
unit 0 in the second variant (and in `auto_hotplug`, which shares the
same `hotplug_offline_work`). -/
theorem hotplug_offline_victim_policy :
    (∀ s avg io_wait loads i,
       (ix1_tick s avg io_wait loads).2 = HpAction.offlineCall (some i) →
       cpuOnline s.cpus i = true ∧ i ≠ 0 ∧
       ∀ j, j < 4 → j ≠ 0 → cpuOnline s.cpus j = true → loads i ≤ loads j) ∧
    (∀ s avg i, (ix2_tick s avg).2 = HpAction.offlineCall (some i) →
       cpuOnline s.cpus i = true ∧ i ≠ 0 ∧
       ∀ j, 1 ≤ j → j < i → cpuOnline s.cpus j = false) := by
  constructor
  · intro s avg io_wait loads i h
    unfold ix1_tick at h
    split_ifs at h
    all_goals simp at h
    exact offlineIdlestVictim_spec _ _ _ h
  · intro s avg i h
    rcases hv : offlineFirstVictim s.cpus with _ | k
    · simp only [ix2_tick, hv] at h
      split_ifs at h
      all_goals simp at h
    · have hk := offlineFirstVictim_spec _ _ hv
      simp only [ix2_tick, hv] at h
      split_ifs at h
      all_goals simp at h
      subst h
      exact hk

/-- Witness for C9 (amended): the scale-down tick of the second variant
at the fully-online state deactivates unit 1, which is online and is
not unit 0. -/
theorem hotplug_offline_victim_policy_witness :
    cpuOnline ⟨true, true, true, true⟩ 1 = true ∧ (1 : Nat) ≠ 0 :=
  have h := hotplug_offline_victim_policy.2 ⟨⟨true, true, true, true⟩, 1, 5, 100⟩ 50 1
    (by decide)
  ⟨h.1, h.2.1⟩
